import Mathlib

/-!
Shallow embedding of the dz_skiils e-learning backend (Go / Gin / database-sql)
into Lean 4, together with theorems settling the specification claims.

The database is modelled as explicit in-memory state (association lists of
rows); each handler is a pure function from request data and state to an HTTP
response, the new state, and the trace of SQL statements it executed.
Machine `uint` fields become `Nat`; Go `time.Time` / Unix timestamps become
`Int`; nullable columns become `Option`; fallible paths return explicit
error responses, mirroring the Go control flow statement by statement.
-/

namespace DzSkills

/-! ### Data model (models/*.go) -/

/-- Row of `student_courses` (models.StudentCourse): the enrollment join
relation between a student and a course. -/
structure StudentCourse where
  studentId : Nat
  courseId : Nat
  grade : String
  enrollment : Int
  certificate : Option String
  issued : Bool
deriving DecidableEq, Repr

/-- A student's answer to one exam question (controllers.ExamAnswer). -/
structure ExamAnswer where
  quizzId : Nat
  answer : Nat
deriving DecidableEq, Repr

/-- Row of `cratings` (models.Crating): a course rating by a student. -/
structure Crating where
  courseId : Nat
  studentId : Nat
  rating : Int
deriving DecidableEq, Repr

/-- Row of `exams` (models.Exam), the fields the exam controller touches. -/
structure Exam where
  id : Nat
  description : String
  courseId : Nat
deriving DecidableEq, Repr

/-- Row of `teachers` (models.Teacher), fields used by the teacher controller. -/
structure TeacherRec where
  id : Nat
  fullName : String
  username : String
  email : String
  password : String
  picture : String
  skills : String
  degrees : String
  experience : String
deriving DecidableEq, Repr

/-- The identity/credential fields of a teacher or student row that the
login flow reads (models.Teacher / models.Student). -/
structure AuthUser where
  username : String
  email : String
  password : String
deriving DecidableEq, Repr

/-! ### SQL statements (one constructor per parameterized query executed) -/

/-- A SQL statement executed against the store, recorded in handler traces. -/
inductive SqlOp where
  | beginTx
  | commit
  | selectQuizAnswer (quizzId : Nat)
  | updateStudentCourse (studentId courseId : Nat)
  | insertStudentCourse (studentId courseId : Nat)
  | selectCourseExists (courseId : Nat)
  | insertExam (description : String) (courseId : Nat)
  | selectUsernameExists (username : String) (id : Nat)
  | selectEmailExists (email : String) (id : Nat)
  | insertTeacher (username : String)
  | insertCrating (courseId studentId : Nat) (rating : Int)
  | updateCrating (courseId studentId : Nat) (rating : Int)
deriving DecidableEq, Repr

/-- Whether a statement is an application-level existence/uniqueness probe
(`SELECT EXISTS(...)`) rather than the operation's own read or write. -/
def isExistenceCheckOp : SqlOp → Bool
  | .selectCourseExists _ => true
  | .selectUsernameExists _ _ => true
  | .selectEmailExists _ _ => true
  | _ => false

/-! ### Auth component (auth/jwt.go) -/

/-- JWT claims carried by a token (auth.JWTClaim): identity, role, expiry. -/
structure JWTClaim where
  username : String
  email : String
  role : String
  expiresAt : Int
deriving DecidableEq, Repr

/-- A signed compact token: the claims together with the key the HS256
signature was produced with (the MAC binds key and claims). -/
structure SignedToken where
  claims : JWTClaim
  signedWith : String
deriving DecidableEq, Repr

/-- auth.GenerateJWT: claims carry email, username, role and an expiry of
1000 hours (3600000 seconds) past `now`; the token is signed with `key`. -/
def generateJWT (key : String) (now : Int) (email username role : String) :
    SignedToken :=
  { claims := { username := username, email := email, role := role,
                expiresAt := now + 3600000 },
    signedWith := key }

/-- jwt.ParseWithClaims with the HS256 key function: parsing succeeds with
the embedded claims exactly when the signature was made with our key. -/
def parseWithClaims (key : String) (tok : SignedToken) :
    Except String JWTClaim :=
  if tok.signedWith = key then .ok tok.claims else .error "signature is invalid"

/-- auth.ValidateToken on an already-isolated token value: parse, then
reject claims whose `ExpiresAt` is before `now`. -/
def validateToken (key : String) (now : Int) (tok : SignedToken) :
    Except String JWTClaim :=
  match parseWithClaims key tok with
  | .error e => .error e
  | .ok c => if c.expiresAt < now then .error "token expired" else .ok c

/-- The Bearer-prefix stripping at the top of auth.ValidateToken:
`if len(signedToken) > 7 && signedToken[:7] == "Bearer "`. -/
def stripBearer (s : String) : String :=
  if 7 < s.length ∧ String.mk (s.data.take 7) = "Bearer " then
    String.mk (s.data.drop 7)
  else s

/-- auth.ValidateToken at the string level: strip the Bearer prefix, hand
the rest to the JWT parser (abstracted as `parse`), then check expiry. -/
def validateTokenStr (parse : String → Except String JWTClaim) (now : Int)
    (s : String) : Except String JWTClaim :=
  match parse (stripBearer s) with
  | .error e => .error e
  | .ok c => if c.expiresAt < now then .error "token expired" else .ok c

/-! ### Middleware (middlewares.AuthMiddleware) -/

/-- Outcome of running the middleware: abort with a status and error body,
or fall through to the protected handler (`context.Next()`). -/
inductive MWResult where
  | abort (status : Nat) (error : String)
  | proceed
deriving DecidableEq, Repr

/-- middlewares.AuthMiddleware: 401 on an empty Authorization header, 401
with the validation error when ValidateToken fails, otherwise Next. -/
def authMiddleware (validate : String → Except String JWTClaim)
    (header : String) : MWResult :=
  if header = "" then .abort 401 "request does not contain an access token"
  else
    match validate header with
    | .error e => .abort 401 e
    | .ok _ => .proceed

/-! ### Login (controllers.GenerateToken, controllers/token.go) -/

/-- The login request body (controllers.TokenRequest). -/
structure TokenRequest where
  identifier : String
  password : String
  role : String
deriving DecidableEq, Repr

/-- The two credential tables the login flow can read. -/
structure AuthDB where
  teachers : List AuthUser
  students : List AuthUser
deriving DecidableEq, Repr

/-- `DB.Where("email = ? OR username = ?", id, id).First(&u)`: the first row
whose email or username equals the identifier, if any. -/
def findFirstByEmailOrUsername (rows : List AuthUser) (identifier : String) :
    Option AuthUser :=
  rows.find? (fun u => u.email == identifier || u.username == identifier)

/-- Response of the login endpoint. -/
structure TokenResp where
  status : Nat
  error : Option String := none
  token : Option SignedToken := none
  username : Option String := none
  role : Option String := none
deriving DecidableEq, Repr

/-- controllers.GenerateToken: role gate, role-directed lookup, bcrypt
password check (abstracted as `checkPassword stored provided`), then JWT
issuance. -/
def generateToken (checkPassword : String → String → Bool) (key : String)
    (now : Int) (db : AuthDB) (input : TokenRequest) : TokenResp :=
  if input.role ≠ "teacher" ∧ input.role ≠ "student" then
    { status := 400, error := some "invalid role specified" }
  else
    let found : Option AuthUser :=
      if input.role = "teacher" then
        findFirstByEmailOrUsername db.teachers input.identifier
      else
        findFirstByEmailOrUsername db.students input.identifier
    match found with
    | none => { status := 401, error := some "user not found or invalid credentials" }
    | some user =>
        if checkPassword user.password input.password then
          { status := 200,
            token := some (generateJWT key now user.email user.username input.role),
            username := some user.username,
            role := some input.role }
        else
          { status := 401, error := some "invalid credentials" }

/-! ### StudentCourse controller (controllers/studentcourse.go) -/

/-- The tables touched by the student-course controller: `exam_quizzes`
rows reduced to (id, answer), and the `student_courses` rows. -/
structure ExamDB where
  examQuizzes : List (Nat × Nat)
  studentCourses : List StudentCourse
deriving DecidableEq, Repr

/-- `SELECT answer FROM exam_quizzes WHERE id = $1`: `none` models
sql.ErrNoRows. -/
def lookupQuizAnswer (db : ExamDB) (quizzId : Nat) : Option Nat :=
  (db.examQuizzes.find? (fun row => row.1 == quizzId)).map (fun row => row.2)

/-- The grading loop of SubmitExamAnswers: one SELECT per answer, abort at
the first missing question (carrying its id for the 404 message), else
accumulate the count of matches. Returns the reads performed and the
outcome. -/
def gradeExam (db : ExamDB) : List ExamAnswer → Nat → List SqlOp × Except Nat Nat
  | [], acc => ([], .ok acc)
  | a :: rest, acc =>
    match lookupQuizAnswer db a.quizzId with
    | none => ([SqlOp.selectQuizAnswer a.quizzId], .error a.quizzId)
    | some correct =>
        let r := gradeExam db rest (if a.answer == correct then acc + 1 else acc)
        (SqlOp.selectQuizAnswer a.quizzId :: r.1, r.2)

/-- The UPDATE on `student_courses` keyed by (student_id, course_id):
every matching row gets the new grade, enrollment, certificate and issued. -/
def applyStudentCourseUpdate (grade : String) (enrollment : Int)
    (certificate : Option String) (issued : Bool) (studentId courseId : Nat)
    (rows : List StudentCourse) : List StudentCourse :=
  rows.map (fun r =>
    if r.studentId == studentId && r.courseId == courseId then
      { r with grade := grade, enrollment := enrollment,
               certificate := certificate, issued := issued }
    else r)

/-- Response of SubmitExamAnswers. -/
structure SubmitResp where
  status : Nat
  error : Option String := none
  grade : Option String := none
  passed : Option Bool := none
  certificateIssued : Option Bool := none
  certificate : Option String := none
deriving DecidableEq, Repr

/-- controllers.SubmitExamAnswers: require exactly 20 answers, then inside
one transaction read each question's stored answer, count matches, build
the "N/20" grade, decide passing at 10, and update the enrollment row;
rollback (state unchanged) on any error, commit at the end. -/
def submitExamAnswers (db : ExamDB) (now : Int) (studentId courseId : Nat)
    (answers : List ExamAnswer) : SubmitResp × ExamDB × List SqlOp :=
  if answers.length = 20 then
    let graded := gradeExam db answers 0
    match graded.2 with
    | .error qid =>
        ({ status := 404, error := some ("Question not found: " ++ toString qid) },
         db, SqlOp.beginTx :: graded.1)
    | .ok correctAnswers =>
        let grade := toString correctAnswers ++ "/20"
        let passed : Bool := decide (10 ≤ correctAnswers)
        let certificate : Option String :=
          if passed then some "System of certificates available soon" else none
        ({ status := 200, grade := some grade, passed := some passed,
           certificateIssued := some passed, certificate := certificate },
         { db with studentCourses :=
             (applyStudentCourseUpdate grade now certificate passed
               studentId courseId db.studentCourses) },
         SqlOp.beginTx :: graded.1 ++
           [SqlOp.updateStudentCourse studentId courseId, SqlOp.commit])
  else
    ({ status := 400, error := some "Exactly 20 answers are required" }, db, [])

/-- validateStudentCourse: both ids must be non-zero. -/
def validateStudentCourse (sc : StudentCourse) : Option String :=
  if sc.studentId = 0 then some "student ID is required"
  else if sc.courseId = 0 then some "course ID is required"
  else none

/-- Response of CreateStudentCourse. -/
structure CreateSCResp where
  status : Nat
  error : Option String := none
  created : Option StudentCourse := none
deriving DecidableEq, Repr

/-- controllers.CreateStudentCourse: validate, force
`Enrollment = time.Now()` and `Issued = false`, then one INSERT. -/
def createStudentCourse (rows : List StudentCourse) (now : Int)
    (sc : StudentCourse) : CreateSCResp × List StudentCourse × List SqlOp :=
  match validateStudentCourse sc with
  | some msg => ({ status := 400, error := some msg }, rows, [])
  | none =>
      let sc2 := { sc with enrollment := now, issued := false }
      ({ status := 201, created := some sc2 }, rows ++ [sc2],
       [SqlOp.insertStudentCourse sc.studentId sc.courseId])

/-! ### Crating controller (controllers/crating.go) -/

/-- Generic response for the simple controllers (status + error body). -/
structure CtrlResp where
  status : Nat
  error : Option String := none
deriving DecidableEq, Repr

/-- validateCrating: ids non-zero, rating within 0..5. -/
def validateCrating (cr : Crating) : Option String :=
  if cr.courseId = 0 ∨ cr.studentId = 0 then
    some "course_id and student_id are required"
  else if cr.rating < 0 ∨ 5 < cr.rating then
    some "rating must be between 0 and 5"
  else none

/-- controllers.CreateCrating: validate, then one INSERT (no existence
check on the course or student foreign keys). -/
def createCrating (rows : List Crating) (cr : Crating) :
    CtrlResp × List Crating × List SqlOp :=
  match validateCrating cr with
  | some msg => ({ status := 400, error := some msg }, rows, [])
  | none =>
      ({ status := 201 }, rows ++ [cr],
       [SqlOp.insertCrating cr.courseId cr.studentId cr.rating])

/-- controllers.UpdateCrating: validate, then one UPDATE keyed by
(course_id, student_id). -/
def updateCrating (rows : List Crating) (cr : Crating) :
    CtrlResp × List Crating × List SqlOp :=
  match validateCrating cr with
  | some msg => ({ status := 400, error := some msg }, rows, [])
  | none =>
      ({ status := 200 },
       rows.map (fun r =>
         if r.courseId == cr.courseId && r.studentId == cr.studentId then
           { r with rating := cr.rating }
         else r),
       [SqlOp.updateCrating cr.courseId cr.studentId cr.rating])

/-! ### Exam controller (controllers/exam.go) -/

/-- The tables the exam controller touches: existing course ids and the
exam rows. -/
structure ExamCtrlDB where
  courses : List Nat
  exams : List Exam
deriving DecidableEq, Repr

/-- validateExam: non-empty description, positive (non-zero uint) course id. -/
def validateExam (exam : Exam) : Option String :=
  if exam.description = "" then some "description is required"
  else if exam.courseId = 0 then some "valid course ID is required"
  else none

/-- controllers.CreateExam: validate, `SELECT EXISTS` on the course foreign
key (404 when absent), then the single INSERT RETURNING the new id. -/
def createExam (db : ExamCtrlDB) (newId : Nat) (exam : Exam) :
    CtrlResp × ExamCtrlDB × List SqlOp :=
  match validateExam exam with
  | some msg => ({ status := 400, error := some msg }, db, [])
  | none =>
      if db.courses.contains exam.courseId then
        ({ status := 201 },
         { db with exams := db.exams ++ [{ exam with id := newId }] },
         [SqlOp.selectCourseExists exam.courseId,
          SqlOp.insertExam exam.description exam.courseId])
      else
        ({ status := 404, error := some "Course not found" }, db,
         [SqlOp.selectCourseExists exam.courseId])

/-! ### Teacher controller (controllers/teacher.go) -/

/-- validateTeacher: required fields; password required only for new rows. -/
def validateTeacher (t : TeacherRec) : Option String :=
  if t.fullName = "" then some "full name is required"
  else if t.username = "" then some "username is required"
  else if t.email = "" then some "email is required"
  else if t.password = "" ∧ t.id = 0 then some "password is required"
  else none

/-- checkUniqueness: `SELECT EXISTS` probes for a conflicting username and
then (only if the first passes) a conflicting email, each excluding the
row's own id; returns the reads performed and the first conflict found. -/
def checkUniqueness (rows : List TeacherRec) (t : TeacherRec) :
    List SqlOp × Option String :=
  if rows.any (fun r => r.username == t.username && r.id != t.id) then
    ([SqlOp.selectUsernameExists t.username t.id], some "username already exists")
  else if rows.any (fun r => r.email == t.email && r.id != t.id) then
    ([SqlOp.selectUsernameExists t.username t.id,
      SqlOp.selectEmailExists t.email t.id], some "email already exists")
  else
    ([SqlOp.selectUsernameExists t.username t.id,
      SqlOp.selectEmailExists t.email t.id], none)

/-- controllers.CreateTeacher: validate, application-level uniqueness
checks (400 on conflict), bcrypt-hash the password (abstracted as `hash`),
then one INSERT RETURNING id inside a transaction. -/
def createTeacher (hash : String → String) (rows : List TeacherRec)
    (newId : Nat) (t : TeacherRec) : CtrlResp × List TeacherRec × List SqlOp :=
  match validateTeacher t with
  | some msg => ({ status := 400, error := some msg }, rows, [])
  | none =>
      let checked := checkUniqueness rows t
      match checked.2 with
      | some msg => ({ status := 400, error := some msg }, rows, checked.1)
      | none =>
          let t2 := { t with password := hash t.password, id := newId }
          ({ status := 201 }, rows ++ [t2],
           checked.1 ++ [SqlOp.beginTx, SqlOp.insertTeacher t.username, SqlOp.commit])

/-! ### Derived notions used by the theorems -/

instance {ε α : Type} [DecidableEq ε] [DecidableEq α] : DecidableEq (Except ε α) :=
  fun a b =>
    match a, b with
    | .error x, .error y =>
        if h : x = y then isTrue (by rw [h]) else isFalse (by simp [h])
    | .ok x, .ok y =>
        if h : x = y then isTrue (by rw [h]) else isFalse (by simp [h])
    | .error _, .ok _ => isFalse (by simp)
    | .ok _, .error _ => isFalse (by simp)

/-- The exam score: how many submitted answers equal the stored answer of
the question they reference. -/
def countCorrect (db : ExamDB) (answers : List ExamAnswer) : Nat :=
  answers.countP (fun a => lookupQuizAnswer db a.quizzId == some a.answer)

/-- The row invariant the rating validation is meant to guarantee. -/
def goodCrating (r : Crating) : Prop :=
  0 ≤ r.rating ∧ r.rating ≤ 5 ∧ r.courseId ≠ 0 ∧ r.studentId ≠ 0

instance (r : Crating) : Decidable (goodCrating r) := by
  unfold goodCrating; infer_instance

/-- A concrete JWT parser: exactly one well-formed compact serialization
decodes to claims, any other string (in particular one containing a space,
as every Bearer-prefixed string does) is a parse error. -/
def parse0 : String → Except String JWTClaim := fun s =>
  if s = "header.payload.signature" then .ok ⟨"u", "e", "teacher", 0⟩
  else .error "token contains an invalid number of segments"

/-! ### Theorems -/

/-- When every referenced question exists, the grading loop performs one
read per answer and returns the accumulator plus the number of matches. -/
theorem gradeExam_eq_of_all_found (db : ExamDB) (answers : List ExamAnswer)
    (acc : Nat)
    (h : ∀ a ∈ answers, (lookupQuizAnswer db a.quizzId).isSome) :
    gradeExam db answers acc =
      (answers.map (fun a => SqlOp.selectQuizAnswer a.quizzId),
       .ok (acc + answers.countP
         (fun a => lookupQuizAnswer db a.quizzId == some a.answer))) := by
  induction answers generalizing acc with
  | nil => simp [gradeExam]
  | cons a rest ih =>
      have ha := h a (List.mem_cons_self a rest)
      obtain ⟨correct, hc⟩ := Option.isSome_iff_exists.mp ha
      have hrest : ∀ x ∈ rest, (lookupQuizAnswer db x.quizzId).isSome :=
        fun x hx => h x (List.mem_cons_of_mem _ hx)
      rw [gradeExam, hc]
      dsimp only
      rw [ih _ hrest]
      simp only [List.map_cons, List.countP_cons, hc]
      by_cases hb : a.answer == correct
      · have hb2 : (some correct == some a.answer) = true := by
          simp at hb; simp [hb]
        simp [hb, hb2]
        omega
      · have hb2 : (some correct == some a.answer) = false := by
          simp at hb ⊢; omega
        simp [hb, hb2]

/-- C1: for every exam submission of exactly 20 answers in which every
referenced quiz question exists, SubmitExamAnswers counts the answers that
match the stored correct answer, stores the grade "N/20", sets Issued to
the pass verdict (N ≥ 10), stores a non-null certificate text exactly when
passing and null otherwise, and performs the grading reads and the
enrollment update inside one transaction that is committed at the end. -/
theorem submitExamAnswers_grades_and_certifies
    (db : ExamDB) (now : Int) (studentId courseId : Nat)
    (answers : List ExamAnswer)
    (hlen : answers.length = 20)
    (hfound : ∀ a ∈ answers, (lookupQuizAnswer db a.quizzId).isSome) :
    submitExamAnswers db now studentId courseId answers =
      ({ status := 200, error := none,
         grade := some (toString (countCorrect db answers) ++ "/20"),
         passed := some (decide (10 ≤ countCorrect db answers)),
         certificateIssued := some (decide (10 ≤ countCorrect db answers)),
         certificate :=
           (if 10 ≤ countCorrect db answers then
             some "System of certificates available soon" else none) },
       { db with studentCourses :=
           (applyStudentCourseUpdate (toString (countCorrect db answers) ++ "/20")
             now
             (if 10 ≤ countCorrect db answers then
               some "System of certificates available soon" else none)
             (decide (10 ≤ countCorrect db answers))
             studentId courseId db.studentCourses) },
       SqlOp.beginTx ::
         answers.map (fun a => SqlOp.selectQuizAnswer a.quizzId) ++
         [SqlOp.updateStudentCourse studentId courseId, SqlOp.commit]) := by
  have hg := gradeExam_eq_of_all_found db answers 0 hfound
  simp [submitExamAnswers, hlen, hg, countCorrect]

/-- Witness for C1 at a concrete database and a concrete 20-answer
submission. -/
theorem submitExamAnswers_grades_and_certifies_witness :
    submitExamAnswers ⟨[(1, 3)], [⟨5, 7, "", 0, none, false⟩]⟩ 42 5 7
        (List.replicate 20 ⟨1, 3⟩) =
      ({ status := 200, error := none,
         grade := some (toString (countCorrect ⟨[(1, 3)], [⟨5, 7, "", 0, none, false⟩]⟩
           (List.replicate 20 ⟨1, 3⟩)) ++ "/20"),
         passed := some (decide (10 ≤ countCorrect ⟨[(1, 3)], [⟨5, 7, "", 0, none, false⟩]⟩
           (List.replicate 20 ⟨1, 3⟩))),
         certificateIssued := some (decide (10 ≤ countCorrect ⟨[(1, 3)], [⟨5, 7, "", 0, none, false⟩]⟩
           (List.replicate 20 ⟨1, 3⟩))),
         certificate :=
           (if 10 ≤ countCorrect ⟨[(1, 3)], [⟨5, 7, "", 0, none, false⟩]⟩
               (List.replicate 20 ⟨1, 3⟩) then
             some "System of certificates available soon" else none) },
       { examQuizzes := [(1, 3)],
         studentCourses :=
           (applyStudentCourseUpdate
             (toString (countCorrect ⟨[(1, 3)], [⟨5, 7, "", 0, none, false⟩]⟩
               (List.replicate 20 ⟨1, 3⟩)) ++ "/20") 42
             (if 10 ≤ countCorrect ⟨[(1, 3)], [⟨5, 7, "", 0, none, false⟩]⟩
                 (List.replicate 20 ⟨1, 3⟩) then
               some "System of certificates available soon" else none)
             (decide (10 ≤ countCorrect ⟨[(1, 3)], [⟨5, 7, "", 0, none, false⟩]⟩
               (List.replicate 20 ⟨1, 3⟩)))
             5 7 [⟨5, 7, "", 0, none, false⟩]) },
       SqlOp.beginTx ::
         (List.replicate 20 (⟨1, 3⟩ : ExamAnswer)).map
           (fun a => SqlOp.selectQuizAnswer a.quizzId) ++
         [SqlOp.updateStudentCourse 5 7, SqlOp.commit]) :=
  submitExamAnswers_grades_and_certifies _ 42 5 7 _ (by decide) (by decide)

/-- C8: a submission whose answer list does not have length 20 is rejected
with HTTP 400 and the error "Exactly 20 answers are required", before any
transaction is started (empty SQL trace) and with the state unchanged. -/
theorem submitExamAnswers_rejects_wrong_count
    (db : ExamDB) (now : Int) (studentId courseId : Nat)
    (answers : List ExamAnswer) (h : answers.length ≠ 20) :
    submitExamAnswers db now studentId courseId answers =
      ({ status := 400, error := some "Exactly 20 answers are required" },
       db, []) := by
  simp [submitExamAnswers, h]

/-- Witness for C8: the empty answer list. -/
theorem submitExamAnswers_rejects_wrong_count_witness :
    submitExamAnswers ⟨[(1, 3)], [⟨5, 7, "", 0, none, false⟩]⟩ 42 5 7 [] =
      ({ status := 400, error := some "Exactly 20 answers are required" },
       ⟨[(1, 3)], [⟨5, 7, "", 0, none, false⟩]⟩, []) :=
  submitExamAnswers_rejects_wrong_count _ 42 5 7 [] (by decide)

/-- C7: with non-zero student and course ids, CreateStudentCourse inserts
exactly one row carrying the request's grade and certificate, but with
Issued forced to false and Enrollment forced to the server's current time;
the client-supplied Issued and Enrollment values are ignored. -/
theorem createStudentCourse_forces_defaults
    (rows : List StudentCourse) (now : Int) (sc : StudentCourse)
    (hs : sc.studentId ≠ 0) (hc : sc.courseId ≠ 0) :
    (createStudentCourse rows now sc =
      ({ status := 201, error := none,
         created := some { sc with enrollment := now, issued := false } },
       rows ++ [{ sc with enrollment := now, issued := false }],
       [SqlOp.insertStudentCourse sc.studentId sc.courseId])) ∧
    ∀ b t, createStudentCourse rows now { sc with issued := b, enrollment := t } =
      createStudentCourse rows now sc := by
  constructor
  · simp [createStudentCourse, validateStudentCourse, hs, hc]
  · intro b t
    simp [createStudentCourse, validateStudentCourse, hs, hc]

/-- Witness for C7 at a concrete enrollment request with client-supplied
Issued = true and a stale Enrollment time. -/
theorem createStudentCourse_forces_defaults_witness :
    (createStudentCourse [] 99 ⟨3, 4, "0/20", 17, some "cert", true⟩ =
      ({ status := 201, error := none,
         created := some ⟨3, 4, "0/20", 99, some "cert", false⟩ },
       [⟨3, 4, "0/20", 99, some "cert", false⟩],
       [SqlOp.insertStudentCourse 3 4])) ∧
    (∀ b t, createStudentCourse [] 99 ⟨3, 4, "0/20", t, some "cert", b⟩ =
      createStudentCourse [] 99 ⟨3, 4, "0/20", 17, some "cert", true⟩) :=
  createStudentCourse_forces_defaults [] 99 ⟨3, 4, "0/20", 17, some "cert", true⟩
    (by decide) (by decide)

/-- C4: AuthMiddleware reaches the protected handler exactly when the
Authorization header is non-empty and ValidateToken accepts it; an empty
header or a failed validation yields HTTP 401 and an abort. -/
theorem authMiddleware_gate (validate : String → Except String JWTClaim)
    (header : String) :
    (authMiddleware validate header = .proceed ↔
      header ≠ "" ∧ ∃ c, validate header = .ok c) ∧
    (header = "" →
      authMiddleware validate header =
        .abort 401 "request does not contain an access token") ∧
    (∀ e, header ≠ "" → validate header = .error e →
      authMiddleware validate header = .abort 401 e) := by
  refine ⟨?_, ?_, ?_⟩
  · by_cases h : header = ""
    · simp [authMiddleware, h]
    · cases hv : validate header with
      | error e => simp [authMiddleware, h, hv]
      | ok c => simp [authMiddleware, h, hv]
  · intro h; simp [authMiddleware, h]
  · intro e h hv; simp [authMiddleware, h, hv]

/-- Witness for C4: an empty header aborts, and a header rejected by the
validator aborts with the validator's error. -/
theorem authMiddleware_gate_witness :
    (authMiddleware (fun _ => .error "signature is invalid") "" =
      .abort 401 "request does not contain an access token") ∧
    (authMiddleware (fun _ => .error "signature is invalid") "Bearer x" =
      .abort 401 "signature is invalid") :=
  ⟨(authMiddleware_gate (fun _ => .error "signature is invalid") "").2.1 rfl,
   (authMiddleware_gate (fun _ => .error "signature is invalid") "Bearer x").2.2
     "signature is invalid" (by decide) rfl⟩

/-- C3: every token issued by GenerateJWT is signed with the server key and
carries the user's email, username and role together with an expiry time;
ValidateToken errors (yielding no claims) on every token whose expiry is
before the current time; and a token signed with the right key and still
within its validity window validates to exactly the claims it was issued
with. -/
theorem generateJWT_validateToken_claims
    (key : String) (now nowCheck : Int) (email username role : String)
    (tok : SignedToken) :
    ((generateJWT key now email username role).signedWith = key ∧
     (generateJWT key now email username role).claims =
       { username := username, email := email, role := role,
         expiresAt := now + 3600000 }) ∧
    (tok.claims.expiresAt < nowCheck →
      ∃ e, validateToken key nowCheck tok = .error e) ∧
    (¬ now + 3600000 < nowCheck →
      validateToken key nowCheck (generateJWT key now email username role) =
        .ok { username := username, email := email, role := role,
              expiresAt := now + 3600000 }) := by
  refine ⟨⟨rfl, rfl⟩, ?_, ?_⟩
  · intro hexp
    unfold validateToken parseWithClaims
    by_cases hs : tok.signedWith = key
    · exact ⟨"token expired", by simp [hs, hexp]⟩
    · exact ⟨"signature is invalid", by simp [hs]⟩
  · intro h
    simp [validateToken, parseWithClaims, generateJWT, h]

/-- Witness for C3: a concrete token issued at time 0 and validated at
time 5, within its 1000-hour window. -/
theorem generateJWT_validateToken_claims_witness :
    validateToken "k" 5 (generateJWT "k" 0 "e" "u" "teacher") =
      .ok { username := "u", email := "e", role := "teacher",
            expiresAt := 0 + 3600000 } :=
  (generateJWT_validateToken_claims "k" 0 5 "e" "u" "teacher"
    ⟨⟨"", "", "", 0⟩, ""⟩).2.2 (by decide)

/-- C2: GenerateToken rejects an unknown role with HTTP 400 and no token;
for role "teacher" it reads only the teachers table and for role "student"
only the students table, matching the identifier against email or
username; and it answers HTTP 401 with no token when the lookup finds no
row or when the password check fails. -/
theorem generateToken_role_gate
    (checkPassword : String → String → Bool) (key : String) (now : Int)
    (db : AuthDB) (input : TokenRequest) :
    (input.role ≠ "teacher" ∧ input.role ≠ "student" →
      generateToken checkPassword key now db input =
        { status := 400, error := some "invalid role specified" }) ∧
    (input.role = "teacher" → ∀ students₂ : List AuthUser,
      generateToken checkPassword key now { db with students := students₂ } input =
        generateToken checkPassword key now db input) ∧
    (input.role = "student" → ∀ teachers₂ : List AuthUser,
      generateToken checkPassword key now { db with teachers := teachers₂ } input =
        generateToken checkPassword key now db input) ∧
    (input.role = "teacher" →
      findFirstByEmailOrUsername db.teachers input.identifier = none →
      generateToken checkPassword key now db input =
        { status := 401, error := some "user not found or invalid credentials" }) ∧
    (input.role = "student" →
      findFirstByEmailOrUsername db.students input.identifier = none →
      generateToken checkPassword key now db input =
        { status := 401, error := some "user not found or invalid credentials" }) ∧
    (∀ u, input.role = "teacher" →
      findFirstByEmailOrUsername db.teachers input.identifier = some u →
      checkPassword u.password input.password = false →
      generateToken checkPassword key now db input =
        { status := 401, error := some "invalid credentials" }) ∧
    (∀ u, input.role = "student" →
      findFirstByEmailOrUsername db.students input.identifier = some u →
      checkPassword u.password input.password = false →
      generateToken checkPassword key now db input =
        { status := 401, error := some "invalid credentials" }) := by
  refine ⟨?_, ?_, ?_, ?_, ?_, ?_, ?_⟩
  · intro h; simp [generateToken, h]
  · intro h st₂; simp [generateToken, h]
  · intro h te₂; simp [generateToken, h]
  · intro h hnone; simp [generateToken, h, hnone]
  · intro h hnone; simp [generateToken, h, hnone]
  · intro u h hsome hpw; simp [generateToken, h, hsome, hpw]
  · intro u h hsome hpw; simp [generateToken, h, hsome, hpw]

/-- Witness for C2: a concrete request with role "admin" is rejected with
HTTP 400 and no token. -/
theorem generateToken_role_gate_witness :
    generateToken (fun stored provided => stored == provided) "k" 0
        ⟨[⟨"tu", "te", "tp"⟩], [⟨"su", "se", "sp"⟩]⟩ ⟨"te", "tp", "admin"⟩ =
      { status := 400, error := some "invalid role specified" } :=
  (generateToken_role_gate (fun stored provided => stored == provided) "k" 0
    ⟨[⟨"tu", "te", "tp"⟩], [⟨"su", "se", "sp"⟩]⟩ ⟨"te", "tp", "admin"⟩).1
    (by decide)

/-- C10: CreateCrating and UpdateCrating reject with HTTP 400, before any
database write (empty SQL trace, state unchanged), every rating outside
0..5 or with a zero course or student id; consequently both operations
preserve the invariant that every stored rating row satisfies
0 ≤ rating ≤ 5 with non-zero ids. -/
theorem crating_validation_invariant (rows : List Crating) (cr : Crating) :
    ((cr.rating < 0 ∨ 5 < cr.rating ∨ cr.courseId = 0 ∨ cr.studentId = 0) →
      ((createCrating rows cr).1.status = 400 ∧
       (createCrating rows cr).2.1 = rows ∧
       (createCrating rows cr).2.2 = []) ∧
      ((updateCrating rows cr).1.status = 400 ∧
       (updateCrating rows cr).2.1 = rows ∧
       (updateCrating rows cr).2.2 = [])) ∧
    ((∀ r ∈ rows, goodCrating r) →
      (∀ r ∈ (createCrating rows cr).2.1, goodCrating r) ∧
      (∀ r ∈ (updateCrating rows cr).2.1, goodCrating r)) := by
  cases hv : validateCrating cr with
  | some msg =>
      refine ⟨fun _ => ?_, fun hrows => ?_⟩
      · simp [createCrating, updateCrating, hv]
      · constructor
        · simpa [createCrating, hv] using hrows
        · simpa [updateCrating, hv] using hrows
  | none =>
      have hids : ¬ (cr.courseId = 0 ∨ cr.studentId = 0) := by
        intro hbad
        simp [validateCrating, hbad] at hv
      have hrange : ¬ (cr.rating < 0 ∨ 5 < cr.rating) := by
        intro hbad
        simp [validateCrating, hids, hbad] at hv
      refine ⟨fun hbad => ?_, fun hrows => ?_⟩
      · rcases hbad with h | h | h | h
        · exact absurd (Or.inl h) hrange
        · exact absurd (Or.inr h) hrange
        · exact absurd (Or.inl h) hids
        · exact absurd (Or.inr h) hids
      · have hgood : goodCrating cr := by
          push_neg at hids hrange
          exact ⟨hrange.1, hrange.2, hids.1, hids.2⟩
        constructor
        · intro r hr
          simp only [createCrating, hv, List.mem_append, List.mem_singleton] at hr
          rcases hr with hr | rfl
          · exact hrows r hr
          · exact hgood
        · intro r hr
          simp only [updateCrating, hv, List.mem_map] at hr
          obtain ⟨r₀, hr₀, rfl⟩ := hr
          by_cases hm : (r₀.courseId == cr.courseId && r₀.studentId == cr.studentId) = true
          · have h₀ := hrows r₀ hr₀
            push_neg at hrange
            simp only [hm, if_true]
            exact ⟨hrange.1, hrange.2, h₀.2.2.1, h₀.2.2.2⟩
          · simp only [hm, if_false]
            exact hrows r₀ hr₀

/-- Witness for C10: a rating of 9 is rejected by both operations with no
write, and the invariant-preservation conjunct holds on a concrete store. -/
theorem crating_validation_invariant_witness :
    (((createCrating [⟨1, 2, 4⟩] ⟨1, 1, 9⟩).1.status = 400 ∧
      (createCrating [⟨1, 2, 4⟩] ⟨1, 1, 9⟩).2.1 = [⟨1, 2, 4⟩] ∧
      (createCrating [⟨1, 2, 4⟩] ⟨1, 1, 9⟩).2.2 = []) ∧
     ((updateCrating [⟨1, 2, 4⟩] ⟨1, 1, 9⟩).1.status = 400 ∧
      (updateCrating [⟨1, 2, 4⟩] ⟨1, 1, 9⟩).2.1 = [⟨1, 2, 4⟩] ∧
      (updateCrating [⟨1, 2, 4⟩] ⟨1, 1, 9⟩).2.2 = [])) ∧
    ((∀ r ∈ (createCrating [⟨1, 2, 4⟩] ⟨1, 1, 9⟩).2.1, goodCrating r) ∧
     (∀ r ∈ (updateCrating [⟨1, 2, 4⟩] ⟨1, 1, 9⟩).2.1, goodCrating r)) :=
  ⟨(crating_validation_invariant [⟨1, 2, 4⟩] ⟨1, 1, 9⟩).1 (by decide),
   (crating_validation_invariant [⟨1, 2, 4⟩] ⟨1, 1, 9⟩).2 (by decide)⟩

/-- Prepending "Bearer " to a non-empty string always satisfies the strip
condition, and stripping recovers the original string. -/
theorem stripBearer_append (t : String) (hne : t ≠ "") :
    stripBearer ("Bearer " ++ t) = t := by
  obtain ⟨td⟩ := t
  have hd : ("Bearer " ++ String.mk td) =
      String.mk ('B' :: 'e' :: 'a' :: 'r' :: 'e' :: 'r' :: ' ' :: td) := rfl
  have hlen : 0 < td.length := by
    cases td with
    | nil => exact absurd rfl hne
    | cons c cs => simp
  rw [hd]
  unfold stripBearer
  rw [if_pos]
  · simp [List.drop]
  · constructor
    · simp [String.length]
      omega
    · simp [List.take]

/-- C9 counterexample: the claimed identity fails when the token string
itself begins with "Bearer ". With a parser that accepts exactly the
well-formed serialization "header.payload.signature", validating
"Bearer Bearer header.payload.signature" strips only the outer prefix and
fails to parse "Bearer header.payload.signature", while validating
"Bearer header.payload.signature" directly strips its prefix and
succeeds. -/
theorem validateTokenStr_double_bearer_counterexample :
    validateTokenStr parse0 0 ("Bearer " ++ "Bearer header.payload.signature") ≠
      validateTokenStr parse0 0 "Bearer header.payload.signature" := by
  decide

/-- C9 (amended): for every non-empty token string t that does not itself
begin with the "Bearer " prefix (in the sense of the code's check: length
above 7 and first seven characters "Bearer "), ValidateToken applied to
"Bearer " followed by t returns the same result as ValidateToken applied
to t directly; the prefix is stripped exactly once before parsing. -/
theorem validateTokenStr_strips_single_bearer
    (parse : String → Except String JWTClaim) (now : Int) (t : String)
    (hne : t ≠ "")
    (hnb : ¬ (7 < t.length ∧ String.mk (t.data.take 7) = "Bearer ")) :
    validateTokenStr parse now ("Bearer " ++ t) =
      validateTokenStr parse now t := by
  have h1 : stripBearer ("Bearer " ++ t) = t := stripBearer_append t hne
  have h2 : stripBearer t = t := by simp [stripBearer, hnb]
  simp [validateTokenStr, h1, h2]

/-- Witness for amended C9 at the concrete token string
"header.payload.signature". -/
theorem validateTokenStr_strips_single_bearer_witness :
    validateTokenStr parse0 0 ("Bearer " ++ "header.payload.signature") =
      validateTokenStr parse0 0 "header.payload.signature" :=
  validateTokenStr_strips_single_bearer parse0 0 "header.payload.signature"
    (by decide) (by decide)

/-- C5 counterexample: CreateCrating, an entity-controller operation whose
row references two foreign keys (course and student), performs no
existence check at all: on a validated request its whole SQL trace is the
single INSERT, with no existence-check statement in it. This refutes
"every entity-controller operation performs ... an existence check on
foreign keys". -/
theorem createCrating_no_fk_check_counterexample :
    createCrating [] ⟨1, 1, 3⟩ =
      ({ status := 201, error := none }, [⟨1, 1, 3⟩],
       [SqlOp.insertCrating 1 1 3]) ∧
    (createCrating [] ⟨1, 1, 3⟩).2.2.filter isExistenceCheckOp = [] := by
  decide

/-- C5 (amended): entity-controller operations perform input validation
and then exactly one SQL statement for the operation itself, but only some
of them precede it with a foreign-key existence check: CreateExam checks
its course foreign key (one SELECT EXISTS, then the single INSERT), while
CreateCrating executes its single INSERT with no existence check. -/
theorem entity_ops_single_statement
    (db : ExamCtrlDB) (newId : Nat) (exam : Exam)
    (rows : List Crating) (cr : Crating)
    (hve : validateExam exam = none)
    (hcourse : db.courses.contains exam.courseId = true)
    (hvc : validateCrating cr = none) :
    createExam db newId exam =
      ({ status := 201, error := none },
       { db with exams := db.exams ++ [{ exam with id := newId }] },
       [SqlOp.selectCourseExists exam.courseId,
        SqlOp.insertExam exam.description exam.courseId]) ∧
    createCrating rows cr =
      ({ status := 201, error := none }, rows ++ [cr],
       [SqlOp.insertCrating cr.courseId cr.studentId cr.rating]) := by
  have hmem : exam.courseId ∈ db.courses := by simpa using hcourse
  constructor
  · simp [createExam, hve, hmem]
  · simp [createCrating, hvc]

/-- Witness for amended C5 on a concrete store and concrete requests. -/
theorem entity_ops_single_statement_witness :
    createExam ⟨[4], []⟩ 9 ⟨0, "final", 4⟩ =
      ({ status := 201, error := none }, ⟨[4], [⟨9, "final", 4⟩]⟩,
       [SqlOp.selectCourseExists 4, SqlOp.insertExam "final" 4]) ∧
    createCrating [] ⟨2, 3, 5⟩ =
      ({ status := 201, error := none }, [⟨2, 3, 5⟩],
       [SqlOp.insertCrating 2 3 5]) :=
  entity_ops_single_statement ⟨[4], []⟩ 9 ⟨0, "final", 4⟩ [] ⟨2, 3, 5⟩
    (by decide) (by decide) (by decide)

/-- C6 counterexample: application code does reject requests on uniqueness
grounds. On a store holding a teacher with username "u", CreateTeacher for
a new teacher with the same username answers HTTP 400 "username already
exists" after an application-issued SELECT EXISTS probe, inserting
nothing. -/
theorem createTeacher_app_uniqueness_counterexample :
    createTeacher (fun p => p) [⟨1, "A", "u", "e", "p", "", "", "", ""⟩] 2
        ⟨0, "B", "u", "e2", "pw", "", "", "", ""⟩ =
      ({ status := 400, error := some "username already exists" },
       [⟨1, "A", "u", "e", "p", "", "", "", ""⟩],
       [SqlOp.selectUsernameExists "u" 0]) := by
  decide

/-- C6 (amended): uniqueness and foreign-key existence are not enforced by
the database schema alone; application code also checks and rejects:
CreateTeacher answers 400 on a duplicate username without inserting, and
CreateExam answers 404 when the referenced course does not exist without
inserting. -/
theorem app_level_checks_reject
    (hash : String → String) (rows : List TeacherRec) (newId : Nat)
    (t : TeacherRec) (db : ExamCtrlDB) (examNewId : Nat) (exam : Exam)
    (hvt : validateTeacher t = none)
    (hdup : rows.any (fun r => r.username == t.username && r.id != t.id) = true)
    (hve : validateExam exam = none)
    (hmiss : db.courses.contains exam.courseId = false) :
    createTeacher hash rows newId t =
      ({ status := 400, error := some "username already exists" }, rows,
       [SqlOp.selectUsernameExists t.username t.id]) ∧
    createExam db examNewId exam =
      ({ status := 404, error := some "Course not found" }, db,
       [SqlOp.selectCourseExists exam.courseId]) := by
  have hmem : exam.courseId ∉ db.courses := by simpa using hmiss
  constructor
  · simp [createTeacher, checkUniqueness, hvt, hdup]
  · simp [createExam, hve, hmem]

/-- Witness for amended C6 on concrete stores and requests. -/
theorem app_level_checks_reject_witness :
    createTeacher (fun p => p ++ "#h") [⟨1, "A", "u", "e", "p", "", "", "", ""⟩] 2
        ⟨0, "B", "u", "e2", "pw", "", "", "", ""⟩ =
      ({ status := 400, error := some "username already exists" },
       [⟨1, "A", "u", "e", "p", "", "", "", ""⟩],
       [SqlOp.selectUsernameExists "u" 0]) ∧
    createExam ⟨[4], []⟩ 9 ⟨0, "final", 5⟩ =
      ({ status := 404, error := some "Course not found" }, ⟨[4], []⟩,
       [SqlOp.selectCourseExists 5]) :=
  app_level_checks_reject (fun p => p ++ "#h")
    [⟨1, "A", "u", "e", "p", "", "", "", ""⟩] 2
    ⟨0, "B", "u", "e2", "pw", "", "", "", ""⟩ ⟨[4], []⟩ 9 ⟨0, "final", 5⟩
    (by decide) (by decide) (by decide) (by decide)

end DzSkills
